import Mathlib

/-!
Verification of the face-swap chat bot's session/state machine.

Shallow embedding of the orchestration core:
  * `utils/stateManager.ts` - search sessions and native-GIF swap sessions
    (in-memory maps, TTL sweep, verified updates);
  * `utils/faceStorage.ts` - saved-face persistence (ownership-scoped CRUD);
  * `utils/rateLimiter.ts` - sliding-window rate limits;
  * `utils/magicHour.ts` - the poll loops of `swapFaces` / `swapFacesInVideo`;
  * `interactions/buttonHandler.ts` - the button-driven transition handlers;
  * the message collectors of `waitForFaceUpload` / `handleNativeGifFaceUpload`.

JavaScript `Map`s are modelled as functions `String → Option α`; machine
timestamps (`Date.now()` milliseconds) as `Int`; the single suspension point
at which a store write could be lost (the spec's "simulated storage fault")
as an explicit `writeOk : Bool` oracle threaded through the update
operations. Async database rows are passed as explicit list-of-rows values.
-/

namespace FaceSwapBot

/-- `Math.ceil (a / b)` for integer `a` and positive integer `b`
(the bot only ever applies it to positive divisors 9, 60000); `/` is
integer floor division, so negating twice rounds the quotient up. -/
def mathCeilDiv (a b : Int) : Int := -((-a) / b)

/-- `Math.min(...xs)` over a list known to be non-empty at every use site
(JS returns `Infinity` on an empty spread; the code only reaches the
call when the list has at least `maxActions ≥ 1` elements). -/
def listMin : List Int → Int
  | [] => 0
  | x :: xs => xs.foldl min x

/-! ## Data model (`types.ts`) -/

/-- A Tenor search result. `media_formats` is flattened to the two URLs the
bot reads (`media_formats.gif.url` is `gifUrl`). -/
structure TenorGif where
  id : String
  title : String
  gifUrl : String
  url : String
  itemurl : String
deriving DecidableEq, Repr

/-- `SearchState` from `types.ts`: one `/gifsearch` session. -/
structure SearchState where
  searchId : String
  query : String
  results : List TenorGif
  currentPage : Int
  totalPages : Int
  userId : String
  channelId : String
  selectedGif : Option TenorGif := none
  timestamp : Int
deriving DecidableEq, Repr

/-- `NativeGifState` from `utils/stateManager.ts`: one inline-GIF swap session. -/
structure NativeGifState where
  id : String
  gifUrl : String
  userId : String
  messageId : String
  channelId : String
  timestamp : Int
  selectedFaceId : Option String := none
deriving DecidableEq, Repr

/-- `SavedFace` row of the `saved_faces` table (`utils/faceStorage.ts`). -/
structure SavedFace where
  id : String
  user_id : String
  name : String
  magic_hour_path : String
  thumbnail_url : Option String := none
  uploaded_at : Int
  usage_count : Int := 0
deriving DecidableEq, Repr

/-! ## Stores: the two in-memory `Map`s of `utils/stateManager.ts` -/

/-- `activeSearches : Map<string, SearchState>` as a function map. -/
abbrev SearchStore : Type := String → Option SearchState

/-- `nativeGifStates : Map<string, NativeGifState>` as a function map. -/
abbrev NativeStore : Type := String → Option NativeGifState

/-- `Map.prototype.set` on the search map. -/
def searchSet (store : SearchStore) (k : String) (v : SearchState) : SearchStore :=
  fun key => if key = k then some v else store key

/-- `Map.prototype.delete` on the search map. -/
def searchDelete (store : SearchStore) (k : String) : SearchStore :=
  fun key => if key = k then none else store key

/-- `Map.prototype.set` on the native-GIF map. -/
def nativeSet (store : NativeStore) (k : String) (v : NativeGifState) : NativeStore :=
  fun key => if key = k then some v else store key

/-- `Map.prototype.delete` on the native-GIF map. -/
def nativeDelete (store : NativeStore) (k : String) : NativeStore :=
  fun key => if key = k then none else store key

/-- `STATE_TIMEOUT = 10 * 60 * 1000` (search-session TTL, ms). -/
def STATE_TIMEOUT : Int := 10 * 60 * 1000

/-- `NATIVE_GIF_TIMEOUT = 5 * 60 * 1000` (native-GIF session TTL, ms). -/
def NATIVE_GIF_TIMEOUT : Int := 5 * 60 * 1000

/-! ## State manager operations (`utils/stateManager.ts`) -/

/-- `createSearchState`: builds the session with
`totalPages = Math.ceil(results.length / 9)`, `currentPage = 0`,
stores it under `searchId` and returns it. -/
def createSearchState (store : SearchStore) (searchId query : String)
    (results : List TenorGif) (userId channelId : String) (now : Int) :
    SearchState × SearchStore :=
  let state : SearchState :=
    { searchId := searchId
      query := query
      results := results
      currentPage := 0
      totalPages := mathCeilDiv (results.length : Int) 9
      userId := userId
      channelId := channelId
      timestamp := now }
  (state, searchSet store searchId state)

/-- `getSearchState`: plain map lookup (logging stripped); no TTL check. -/
def getSearchState (store : SearchStore) (searchId : String) : Option SearchState :=
  store searchId

/-- A `Partial<SearchState>` as passed to `updateSearchState` by the
handlers: the call sites only ever update `currentPage` or `selectedGif`. -/
structure SearchUpdate where
  currentPage : Option Int := none
  selectedGif : Option TenorGif := none
deriving DecidableEq, Repr

/-- `Object.assign(state, updates, { timestamp: Date.now() })`. -/
def applySearchUpdate (state : SearchState) (upd : SearchUpdate) (now : Int) :
    SearchState :=
  { state with
    currentPage := upd.currentPage.getD state.currentPage
    selectedGif := match upd.selectedGif with
      | some g => some g
      | none => state.selectedGif
    timestamp := now }

/-- `StateUpdateResult` from `types.ts`. -/
structure StateUpdateResult where
  success : Bool
  error : Option String := none
deriving DecidableEq, Repr

/-- `updateSearchState`: apply a partial update, write it back, then
**re-read and verify** every updated field (skipping `timestamp`),
reporting a distinct verification failure on mismatch. `writeOk` is the
fault oracle for the single `activeSearches.set` write: `false` models the
spec's simulated storage fault in which the write is lost. -/
def updateSearchState (store : SearchStore) (searchId : String)
    (upd : SearchUpdate) (now : Int) (writeOk : Bool) :
    StateUpdateResult × SearchStore :=
  match store searchId with
  | none => ({ success := false, error := some "Search state not found" }, store)
  | some state =>
    let newState := applySearchUpdate state upd now
    let store2 := if writeOk then searchSet store searchId newState else store
    match store2 searchId with
    | none =>
      ({ success := false, error := some "State verification failed" }, store2)
    | some verifyState =>
      let pageApplied : Bool := match upd.currentPage with
        | some p => verifyState.currentPage = p
        | none => true
      let gifApplied : Bool := match upd.selectedGif with
        | some g => verifyState.selectedGif = some g
        | none => true
      if pageApplied = false then
        ({ success := false,
           error := some "Update verification failed for currentPage" }, store2)
      else if gifApplied = false then
        ({ success := false,
           error := some "Update verification failed for selectedGif" }, store2)
      else
        ({ success := true }, store2)

/-- `deleteSearchState`. -/
def deleteSearchState (store : SearchStore) (searchId : String) : SearchStore :=
  searchDelete store searchId

/-- `getCurrentPageGifs`: `results.slice(currentPage * 9, currentPage * 9 + 9)`.
Stored sessions always have `0 ≤ currentPage`, where slice = drop/take. -/
def getCurrentPageGifs (state : SearchState) : List TenorGif :=
  ((state.results).drop (state.currentPage * 9).toNat).take 9

/-- The search half of `cleanupExpiredStates`: delete every entry with
`now - state.timestamp > STATE_TIMEOUT`. -/
def sweepSearchStates (store : SearchStore) (now : Int) : SearchStore :=
  fun key => match store key with
    | some s => if now - s.timestamp > STATE_TIMEOUT then none else some s
    | none => none

/-- The native-GIF half of `cleanupExpiredStates`: delete every entry with
`now - state.timestamp > NATIVE_GIF_TIMEOUT`. -/
def sweepNativeGifStates (store : NativeStore) (now : Int) : NativeStore :=
  fun key => match store key with
    | some s => if now - s.timestamp > NATIVE_GIF_TIMEOUT then none else some s
    | none => none

/-- `cleanupExpiredStates`: both sweeps, run on the cleanup timer. -/
def cleanupExpiredStates (stores : SearchStore × NativeStore) (now : Int) :
    SearchStore × NativeStore :=
  (sweepSearchStates stores.1 now, sweepNativeGifStates stores.2 now)

/-- `createNativeGifState` with its generated id `native_{userId}_{Date.now()}`. -/
def createNativeGifState (store : NativeStore) (gifUrl userId messageId channelId : String)
    (now : Int) : NativeGifState × NativeStore :=
  let sessionId := "native_" ++ userId ++ "_" ++ toString now
  let state : NativeGifState :=
    { id := sessionId
      gifUrl := gifUrl
      userId := userId
      messageId := messageId
      channelId := channelId
      timestamp := now }
  (state, nativeSet store sessionId state)

/-- `getNativeGifState`: plain lookup, no TTL check. -/
def getNativeGifState (store : NativeStore) (sessionId : String) :
    Option NativeGifState :=
  store sessionId

/-- The partial update passed to `updateNativeGifState` (call sites only
set `selectedFaceId`). -/
structure NativeGifUpdate where
  selectedFaceId : Option String := none
deriving DecidableEq, Repr

/-- `updateNativeGifState`: `Object.assign` then `set`, returning `true`
whenever the session exists - **no read-back verification** (compare
`updateSearchState`). `writeOk` is the same write-fault oracle. -/
def updateNativeGifState (store : NativeStore) (sessionId : String)
    (upd : NativeGifUpdate) (now : Int) (writeOk : Bool) : Bool × NativeStore :=
  match store sessionId with
  | none => (false, store)
  | some state =>
    let newState : NativeGifState :=
      { state with
        selectedFaceId := match upd.selectedFaceId with
          | some f => some f
          | none => state.selectedFaceId
        timestamp := now }
    let store2 := if writeOk then nativeSet store sessionId newState else store
    (true, store2)

/-- `deleteNativeGifState`. -/
def deleteNativeGifState (store : NativeStore) (sessionId : String) : NativeStore :=
  nativeDelete store sessionId

/-! ## Saved-face persistence (`utils/faceStorage.ts`) -/

/-- The `saved_faces` table as a list of rows; `id` is the primary key, so
a well-formed table has at most one row per id (`findUnique` takes the
first match). -/
abbrev FaceDb : Type := List SavedFace

/-- `MAX_FACES_PER_USER = 3`. -/
def MAX_FACES_PER_USER : Nat := 3

/-- `getUserFaces`: all rows with the given owner (the `ORDER BY
uploaded_at DESC` ordering is irrelevant to the verified properties). -/
def getUserFaces (db : FaceDb) (userId : String) : List SavedFace :=
  db.filter (fun f => f.user_id = userId)

/-- `db.savedFace.findUnique({ where: { id } })`. -/
def findFaceUnique (db : FaceDb) (faceId : String) : Option SavedFace :=
  db.find? (fun f => f.id = faceId)

/-- `getFaceById`: fetch by primary key, then return `null` unless the
row's owner equals the querying user (`if (!face || face.userId !== userId)
return null`). -/
def getFaceById (db : FaceDb) (faceId userId : String) : Option SavedFace :=
  match findFaceUnique db faceId with
  | none => none
  | some face => if face.user_id ≠ userId then none else some face

/-- `saveFace`: refuse (returning `null`, inserting nothing) once the user
already has `MAX_FACES_PER_USER` faces; otherwise insert one new row with
id `face_{userId}_{Date.now()}` and return it. -/
def saveFace (db : FaceDb) (userId name magicHourPath : String)
    (thumbnailUrl : Option String) (now : Int) : Option SavedFace × FaceDb :=
  let existingFaces := getUserFaces db userId
  if existingFaces.length ≥ MAX_FACES_PER_USER then
    (none, db)
  else
    let faceId := "face_" ++ userId ++ "_" ++ toString now
    let face : SavedFace :=
      { id := faceId
        user_id := userId
        name := name
        magic_hour_path := magicHourPath
        thumbnail_url := thumbnailUrl
        uploaded_at := now
        usage_count := 0 }
    (some face, db ++ [face])

/-- `deleteFace`: `deleteMany({ where: { id, userId } })`, reporting whether
a row was removed. -/
def deleteFace (db : FaceDb) (faceId userId : String) : Bool × FaceDb :=
  let remaining := db.filter (fun f => ¬(f.id = faceId ∧ f.user_id = userId))
  (remaining.length < db.length, remaining)

/-- `canSaveMoreFaces`. -/
def canSaveMoreFaces (db : FaceDb) (userId : String) : Bool :=
  (getUserFaces db userId).length < MAX_FACES_PER_USER

/-! ## Rate limiter (`utils/rateLimiter.ts`) -/

inductive ActionType where
  | faceswap
  | gifsearch
deriving DecidableEq, Repr

/-- `RateLimitConfig`. -/
structure RateLimitConfig where
  maxActions : Nat
  timeWindow : Int
  actionName : String
deriving Repr

/-- `RATE_LIMITS`: 5 face swaps / hour, 10 GIF searches / hour. -/
def RATE_LIMITS : ActionType → RateLimitConfig
  | .faceswap => { maxActions := 5, timeWindow := 60 * 60 * 1000, actionName := "face swaps" }
  | .gifsearch => { maxActions := 10, timeWindow := 60 * 60 * 1000, actionName := "GIF searches" }

/-- `BURST_LIMIT`: 3 face swaps / 10 minutes. -/
def BURST_LIMIT : RateLimitConfig :=
  { maxActions := 3, timeWindow := 10 * 60 * 1000, actionName := "face swaps" }

/-- The `rate_limits` table: the JSON-decoded timestamp list per
(user, action-kind). -/
abbrev RateDb : Type := String → ActionType → List Int

/-- The outcome of `checkRateLimit`: `null` (allowed), the hourly-limit
denial message, or the burst-limit denial message; each denial carries the
wait time in whole minutes that the message template interpolates
(`Please wait N minute(s)`). -/
inductive RateLimitOutcome where
  | allowed
  | deniedHourly (waitMinutes : Int)
  | deniedBurst (waitMinutes : Int)
deriving DecidableEq, Repr

/-- `checkRateLimit`: prune to the hourly window, deny at `maxActions` with
`Math.ceil((oldest + timeWindow - now) / 1000 / 60)` minutes; for face
swaps additionally deny at `BURST_LIMIT.maxActions` inside the 10-minute
window with the analogous wait time. Read-only: the store is not mutated. -/
def checkRateLimit (db : RateDb) (userId : String) (actionType : ActionType)
    (now : Int) : RateLimitOutcome :=
  let config := RATE_LIMITS actionType
  let timestamps := db userId actionType
  let windowStart := now - config.timeWindow
  let recentTimestamps := timestamps.filter (fun ts => ts > windowStart)
  if recentTimestamps.length ≥ config.maxActions then
    let oldestTimestamp := listMin recentTimestamps
    .deniedHourly (mathCeilDiv (oldestTimestamp + config.timeWindow - now) 60000)
  else if actionType = .faceswap then
    let burstWindowStart := now - BURST_LIMIT.timeWindow
    let burstTimestamps := recentTimestamps.filter (fun ts => ts > burstWindowStart)
    if burstTimestamps.length ≥ BURST_LIMIT.maxActions then
      let oldestBurst := listMin burstTimestamps
      .deniedBurst (mathCeilDiv (oldestBurst + BURST_LIMIT.timeWindow - now) 60000)
    else
      .allowed
  else
    .allowed

/-! ## Remote job client poll loops (`utils/magicHour.ts`) -/

/-- The status payload returned by `imageProjects.get` / `videoProjects.get`:
a status string (`"complete"`, `"error"`, or anything else meaning still
pending), the download list, the credits charged, and the optional
provider error message. -/
structure StatusResponse where
  id : String
  status : String
  downloads : List String := []
  creditsCharged : Int := 0
  errorMessage : Option String := none
deriving DecidableEq, Repr

/-- `FaceSwapResult` from `types.ts`. -/
structure FaceSwapResult where
  id : String
  downloadUrl : String
  creditsCharged : Int
deriving DecidableEq, Repr

/-- Outcome of a swap call: the returned result or the thrown error
message (the `catch` wraps the thrown error into a `MagicHourError`
preserving `message`). -/
inductive SwapOutcome where
  | ok (result : FaceSwapResult)
  | err (message : String)
deriving DecidableEq, Repr

/-- The `while (attempts < maxAttempts)` loop shared by `swapFaces` and
`swapFacesInVideo`: `provider n` is the status returned by the poll on
attempt `n` (1-based, one poll every 5 seconds); `failHead` prefixes the
provider error message; falling out of the loop throws `timeoutMsg`.
Structural recursion on the remaining attempt budget. -/
def pollForCompletion (provider : Nat → StatusResponse)
    (failHead timeoutMsg : String) (attempts : Nat) : Nat → SwapOutcome
  | 0 => .err timeoutMsg
  | remaining + 1 =>
    let statusResponse := provider (attempts + 1)
    if statusResponse.status = "complete" then
      match statusResponse.downloads with
      | [] => .err "No download URL returned from Magic Hour API"
      | url :: _ =>
        .ok { id := statusResponse.id
              downloadUrl := url
              creditsCharged := statusResponse.creditsCharged }
    else if statusResponse.status = "error" then
      .err (failHead ++ (statusResponse.errorMessage.getD "Unknown error"))
    else
      pollForCompletion provider failHead timeoutMsg (attempts + 1) remaining

/-- `swapFaces` (image job), from job creation onward: poll up to
`maxAttempts = 60` (5 minutes at 5-second intervals). The HTTP submit that
yields the project id is external I/O; the argument is the poll endpoint
for that project. -/
def swapFaces (provider : Nat → StatusResponse) : SwapOutcome :=
  pollForCompletion provider "Face swap failed: "
    "Face swap timed out after 5 minutes" 0 60

/-- `swapFacesInVideo` (video/GIF job): poll up to `maxAttempts = 120`
(10 minutes at 5-second intervals). -/
def swapFacesInVideo (provider : Nat → StatusResponse) : SwapOutcome :=
  pollForCompletion provider "Video face swap failed: "
    "Video face swap timed out after 10 minutes" 0 120

/-! ## Upload collectors (`index.ts` `waitForFaceUpload`,
`handleNativeGifFaceUpload`) -/

/-- A message attachment: `contentType` is `null | string`. -/
structure Attachment where
  contentType : Option String := none
deriving DecidableEq, Repr

/-- An inbound channel message as the collectors see it. -/
structure InboundMessage where
  messageId : String
  authorId : String
  attachments : List Attachment := []
deriving DecidableEq, Repr

/-- `validImageTypes` of `waitForFaceUpload`. -/
def validImageTypes : List String :=
  ["image/png", "image/jpeg", "image/jpg", "image/webp", "image/avif",
   "image/tiff", "image/bmp"]

/-- The content-type validation applied to the first attachment:
`attachment.contentType && validImageTypes.includes(contentType.toLowerCase())`. -/
def isValidImageAttachment (a : Attachment) : Bool :=
  match a.contentType with
  | none => false
  | some ct => validImageTypes.contains ct.toLower

/-- The collector filter of `waitForFaceUpload`:
same author and at least one attachment. -/
def uploadFilter (userId : String) (m : InboundMessage) : Bool :=
  m.authorId = userId ∧ m.attachments ≠ []

/-- A message that actually triggers processing: passes the filter and its
first attachment is a valid image. -/
def qualifiesForUpload (userId : String) (m : InboundMessage) : Bool :=
  uploadFilter userId m &&
    match m.attachments.head? with
    | some a => isValidImageAttachment a
    | none => false

/-- Collector bookkeeping for `waitForFaceUpload`: the `collected` guard
flag, whether `collector.stop()` ran, and the messages handed to
`processFaceSwap`. -/
structure CollectorRun where
  collected : Bool := false
  stopped : Bool := false
  processed : List InboundMessage := []
deriving DecidableEq, Repr

/-- One delivery to the `waitForFaceUpload` collector: a stopped collector
receives nothing; a filtered-in message is ignored if `collected` is
already set; an invalid first attachment gets an error reply and leaves
the window open; a valid one sets `collected`, stops the collector and is
processed. -/
def collectStep (userId : String) (run : CollectorRun) (m : InboundMessage) :
    CollectorRun :=
  if run.stopped then run
  else if uploadFilter userId m = false then run
  else if run.collected then run
  else
    match m.attachments.head? with
    | none => run
    | some attachment =>
      if isValidImageAttachment attachment then
        { collected := true, stopped := true, processed := run.processed ++ [m] }
      else
        run

/-- The whole 5-minute collection window of `waitForFaceUpload` over the
sequence of messages arriving in the channel before its deadline. -/
def waitForFaceUpload (userId : String) (messages : List InboundMessage) :
    CollectorRun :=
  messages.foldl (collectStep userId) {}

/-- The collector filter of `handleNativeGifFaceUpload`: same author, an
attachment, and first content type starting with `image/`. -/
def nativeUploadFilter (userId : String) (m : InboundMessage) : Bool :=
  (m.authorId = userId : Bool) && (m.attachments ≠ [] : Bool) &&
    match m.attachments.head? with
    | some a => match a.contentType with
      | some ct => ct.startsWith "image/"
      | none => false
    | none => false

/-- The `max: 1` collection window of `handleNativeGifFaceUpload`: discord
closes the collector after the first filtered-in message, so the fold
stops consuming once one message is taken. -/
def nativeUploadCollect (userId : String) (messages : List InboundMessage) :
    List InboundMessage :=
  match messages with
  | [] => []
  | m :: rest =>
    if nativeUploadFilter userId m then [m]
    else nativeUploadCollect userId rest

/-! ## Button handlers (`interactions/buttonHandler.ts`)

Each handler is embedded from the point where the opaque `customId` has
been split into its fields (the string plumbing of `parseSearchAndFaceId`
and friends is transport decoding); an invocation is `(acting user,
decoded fields)` against the current stores. Every outcome constructor is
one of the handler's `followUp`/`editReply` exits. -/

inductive NavOutcome where
  | searchExpired
  | notYourSearch
  | showPage (page total : Int)
deriving DecidableEq, Repr

/-- `handlePageNavigation`: expiry check, ownership check, then
`newPage = next ? min(currentPage + 1, totalPages - 1)
: max(currentPage - 1, 0)` written through `updateSearchState` (whose
result this handler ignores) and re-read for rendering. -/
def handlePageNavigation (store : SearchStore) (searchId userId : String)
    (next : Bool) (now : Int) (writeOk : Bool) : NavOutcome × SearchStore :=
  match store searchId with
  | none => (.searchExpired, store)
  | some state =>
    if userId ≠ state.userId then (.notYourSearch, store)
    else
      let newPage :=
        if next then min (state.currentPage + 1) (state.totalPages - 1)
        else max (state.currentPage - 1) 0
      let updated := updateSearchState store searchId
        { currentPage := some newPage } now writeOk
      let store2 := updated.2
      match store2 searchId with
      | none => (.searchExpired, store2)
      | some newState => (.showPage newState.currentPage newState.totalPages, store2)

inductive GifSelOutcome where
  | searchExpired
  | notYourSearch
  | invalidSelection
  | updateFailed
  | verificationFailed
  | showFaceChoices (gif : TenorGif)
deriving DecidableEq, Repr

/-- `handleGifSelection`: expiry and ownership checks, bounds check of the
page-relative index, verified `selectedGif` update, then a second explicit
read-back before presenting face choices. -/
def handleGifSelection (store : SearchStore) (searchId : String) (index : Nat)
    (userId : String) (now : Int) (writeOk : Bool) : GifSelOutcome × SearchStore :=
  match store searchId with
  | none => (.searchExpired, store)
  | some state =>
    if userId ≠ state.userId then (.notYourSearch, store)
    else
      let currentGifs := getCurrentPageGifs state
      match currentGifs.get? index with
      | none => (.invalidSelection, store)
      | some selectedGif =>
        let updated := updateSearchState store searchId
          { selectedGif := some selectedGif } now writeOk
        if updated.1.success = false then (.updateFailed, updated.2)
        else
          match updated.2 searchId with
          | none => (.verificationFailed, updated.2)
          | some verifiedState =>
            match verifiedState.selectedGif with
            | none => (.verificationFailed, updated.2)
            | some _ => (.showFaceChoices selectedGif, updated.2)

/-- The local `face` of `handleSavedFaceSelection`: `utils/faceStorage.ts`
exports `getFaceById` as an `async` function (it awaits the database), but
the handler calls it through `require(...)` **without `await`**, so the
local holds the pending promise, not the row. A promise object is truthy
and has no `name` / `magic_hour_path` properties. -/
inductive JsFaceRef where
  | pendingPromise (resolved : Option SavedFace)
deriving DecidableEq, Repr

/-- `if (!face)` on the un-awaited value: a promise is a truthy object. -/
def jsFaceTruthy : JsFaceRef → Bool
  | .pendingPromise _ => true

/-- `face.magic_hour_path` on the un-awaited value: reading a missing
property yields `undefined` (modelled `none`). -/
def jsFaceMagicHourPath : JsFaceRef → Option String
  | .pendingPromise _ => none

inductive FaceSelOutcome where
  | sessionExpired
  | noGifSelected
  | notYourSearch
  | faceNotFound
  | startSwap (facePath : Option String)
deriving DecidableEq, Repr

/-- `handleSavedFaceSelection`: session, selected-GIF and ownership checks,
then `const face = getFaceById(faceId, interaction.user.id)` with no
`await`, `if (!face) ...`, and on the (always taken) other branch a call
to `processFaceSwapWithSavedFace(channel, state.selectedGif,
face.magic_hour_path, ...)`. The search state itself is not mutated by
this handler. -/
def handleSavedFaceSelection (store : SearchStore) (faces : FaceDb)
    (searchId faceId userId : String) : FaceSelOutcome × SearchStore :=
  match store searchId with
  | none => (.sessionExpired, store)
  | some state =>
    match state.selectedGif with
    | none => (.noGifSelected, store)
    | some _ =>
      if userId ≠ state.userId then (.notYourSearch, store)
      else
        let face := JsFaceRef.pendingPromise (getFaceById faces faceId userId)
        if jsFaceTruthy face = false then (.faceNotFound, store)
        else (.startSwap (jsFaceMagicHourPath face), store)

inductive UploadPromptOutcome where
  | invalidState
  | notYourSearch
  | promptUpload
deriving DecidableEq, Repr

/-- `handleFaceUploadPrompt`: `!state || !state.selectedGif` check,
ownership check, then the upload prompt that opens `waitForFaceUpload`. -/
def handleFaceUploadPrompt (store : SearchStore) (searchId userId : String) :
    UploadPromptOutcome × SearchStore :=
  match store searchId with
  | none => (.invalidState, store)
  | some state =>
    match state.selectedGif with
    | none => (.invalidState, store)
    | some _ =>
      if userId ≠ state.userId then (.notYourSearch, store)
      else (.promptUpload, store)

inductive CancelOutcome where
  | notYourSearch
  | cancelled
deriving DecidableEq, Repr

/-- `handleSearchCancel`: reject a foreign user while the state exists,
otherwise delete the state (a no-op delete when it is already gone). -/
def handleSearchCancel (store : SearchStore) (searchId userId : String) :
    CancelOutcome × SearchStore :=
  match store searchId with
  | some state =>
    if userId ≠ state.userId then (.notYourSearch, store)
    else (.cancelled, deleteSearchState store searchId)
  | none => (.cancelled, deleteSearchState store searchId)

inductive NativeSwapOutcome where
  | sessionExpired
  | notYourGif
  | showFaceSelection
deriving DecidableEq, Repr

/-- `handleNativeGifSwapButton`: session check, then the explicit
`state.userId !== userId` ownership check, then the face-selection UI. -/
def handleNativeGifSwapButton (store : NativeStore) (sessionId userId : String) :
    NativeSwapOutcome × NativeStore :=
  match store sessionId with
  | none => (.sessionExpired, store)
  | some state =>
    if state.userId ≠ userId then (.notYourGif, store)
    else (.showFaceSelection, store)

inductive NativeFaceSelOutcome where
  | sessionExpired
  | faceNotFound
  | startSwap (facePath : String)
deriving DecidableEq, Repr

/-- `handleNativeGifFaceSelect`: session check, then
`getUserFaces(userId).find(f => f.id === faceId)` - the faces of the
**acting** user, with no comparison of `userId` against `state.userId` -
then `updateNativeGifState(sessionId, { selectedFaceId: faceId })` and the
swap on the session GIF. -/
def handleNativeGifFaceSelect (store : NativeStore) (faces : FaceDb)
    (sessionId faceId userId : String) (now : Int) (writeOk : Bool) :
    NativeFaceSelOutcome × NativeStore :=
  match store sessionId with
  | none => (.sessionExpired, store)
  | some _ =>
    let userFaces := getUserFaces faces userId
    match userFaces.find? (fun f => f.id = faceId) with
    | none => (.faceNotFound, store)
    | some selectedFace =>
      let updated := updateNativeGifState store sessionId
        { selectedFaceId := some faceId } now writeOk
      (.startSwap selectedFace.magic_hour_path, updated.2)

inductive NativeUploadOutcome where
  | sessionExpired
  | promptUpload
deriving DecidableEq, Repr

/-- `handleNativeGifFaceUpload`: session check, then - with no ownership
check of `userId` against `state.userId` - the upload prompt and the
2-minute `max: 1` collector on the acting user's messages. -/
def handleNativeGifFaceUpload (store : NativeStore) (sessionId userId : String) :
    NativeUploadOutcome × NativeStore :=
  match store sessionId with
  | none => (.sessionExpired, store)
  | some _ => (.promptUpload, store)

/-! ## Theorems -/

/-- C10: `getFaceById` is ownership-scoped at the persistence boundary:
every non-null result has `user_id` equal to the queried user, and a
stored face whose owner differs from the queried user yields `null`. -/
theorem getFaceById_ownership_scoped (db : FaceDb) (faceId userId : String) :
    (∀ f, getFaceById db faceId userId = some f → f.user_id = userId) ∧
    (∀ row, findFaceUnique db faceId = some row → row.user_id ≠ userId →
      getFaceById db faceId userId = none) := by
  constructor
  · intro f h
    rcases hfind : findFaceUnique db faceId with _ | face
    · simp only [getFaceById, hfind] at h
      cases h
    · simp only [getFaceById, hfind] at h
      by_cases hu : face.user_id ≠ userId
      · rw [if_pos hu] at h; cases h
      · rw [if_neg hu] at h
        injection h with h2
        subst h2
        exact not_not.mp hu
  · intro row hrow hneq
    simp only [getFaceById, hrow]
    rw [if_pos hneq]

/-- Witness for C10 on a one-row table: the owner retrieves the face, and
the retrieved row carries the owner's id. -/
theorem getFaceById_ownership_scoped_witness :
    ({ id := "f1", user_id := "alice", name := "A", magic_hour_path := "p",
       thumbnail_url := none, uploaded_at := 0, usage_count := 0 } :
      SavedFace).user_id = "alice" :=
  (getFaceById_ownership_scoped
      [{ id := "f1", user_id := "alice", name := "A", magic_hour_path := "p",
         thumbnail_url := none, uploaded_at := 0, usage_count := 0 }]
      "f1" "alice").1 _ (by decide)

/-- C9: `saveFace` enforces the 3-face cap before inserting: at the cap it
returns `null` and the table is untouched; below the cap it inserts
exactly one new row; in either case every pre-existing row survives the
operation unchanged. -/
theorem saveFace_cap (db : FaceDb) (userId name path : String)
    (thumb : Option String) (now : Int) :
    ((getUserFaces db userId).length ≥ MAX_FACES_PER_USER →
      saveFace db userId name path thumb now = (none, db)) ∧
    ((getUserFaces db userId).length < MAX_FACES_PER_USER →
      ∃ nf, saveFace db userId name path thumb now = (some nf, db ++ [nf])) ∧
    (∀ f ∈ db, f ∈ (saveFace db userId name path thumb now).2) := by
  refine ⟨?_, ?_, ?_⟩
  · intro h
    unfold saveFace
    rw [if_pos h]
  · intro h
    unfold saveFace
    rw [if_neg (by omega)]
    exact ⟨_, rfl⟩
  · intro f hf
    unfold saveFace
    by_cases h : (getUserFaces db userId).length ≥ MAX_FACES_PER_USER
    · rw [if_pos h]; exact hf
    · rw [if_neg h]; exact List.mem_append_left _ hf

/-- Witness for C9: a user holding three saved faces is refused a fourth
and the table is returned unchanged. -/
theorem saveFace_cap_witness :
    saveFace
      [{ id := "fa", user_id := "u", name := "a", magic_hour_path := "pa",
         thumbnail_url := none, uploaded_at := 1, usage_count := 0 },
       { id := "fb", user_id := "u", name := "b", magic_hour_path := "pb",
         thumbnail_url := none, uploaded_at := 2, usage_count := 0 },
       { id := "fc", user_id := "u", name := "c", magic_hour_path := "pc",
         thumbnail_url := none, uploaded_at := 3, usage_count := 0 }]
      "u" "d" "pd" none 9 =
      (none,
       [{ id := "fa", user_id := "u", name := "a", magic_hour_path := "pa",
          thumbnail_url := none, uploaded_at := 1, usage_count := 0 },
        { id := "fb", user_id := "u", name := "b", magic_hour_path := "pb",
          thumbnail_url := none, uploaded_at := 2, usage_count := 0 },
        { id := "fc", user_id := "u", name := "c", magic_hour_path := "pc",
          thumbnail_url := none, uploaded_at := 3, usage_count := 0 }]) :=
  (saveFace_cap _ "u" "d" "pd" none 9).1 (by decide)

/-- C8: the TTL sweep. A session older than its kind-specific TTL
(`STATE_TIMEOUT` = 10 min for search sessions, `NATIVE_GIF_TIMEOUT` =
5 min for native-GIF sessions) is absent after `cleanupExpiredStates`; a
session within its TTL survives the sweep unchanged; and before the sweep
`get` returns a session regardless of age (neither getter checks
expiry). -/
theorem sweep_expiry (searchStore : SearchStore) (nativeStore : NativeStore)
    (now : Int) (key : String) :
    (∀ s, searchStore key = some s →
      getSearchState searchStore key = some s ∧
      (now - s.timestamp > STATE_TIMEOUT →
        (cleanupExpiredStates (searchStore, nativeStore) now).1 key = none) ∧
      (now - s.timestamp ≤ STATE_TIMEOUT →
        (cleanupExpiredStates (searchStore, nativeStore) now).1 key = some s)) ∧
    (∀ ns, nativeStore key = some ns →
      getNativeGifState nativeStore key = some ns ∧
      (now - ns.timestamp > NATIVE_GIF_TIMEOUT →
        (cleanupExpiredStates (searchStore, nativeStore) now).2 key = none) ∧
      (now - ns.timestamp ≤ NATIVE_GIF_TIMEOUT →
        (cleanupExpiredStates (searchStore, nativeStore) now).2 key = some ns)) := by
  constructor
  · intro s hs
    refine ⟨hs, ?_, ?_⟩
    · intro hold
      simp only [cleanupExpiredStates, sweepSearchStates, hs]
      rw [if_pos hold]
    · intro hyoung
      simp only [cleanupExpiredStates, sweepSearchStates, hs]
      rw [if_neg (by omega)]
  · intro ns hns
    refine ⟨hns, ?_, ?_⟩
    · intro hold
      simp only [cleanupExpiredStates, sweepNativeGifStates, hns]
      rw [if_pos hold]
    · intro hyoung
      simp only [cleanupExpiredStates, sweepNativeGifStates, hns]
      rw [if_neg (by omega)]

/-- A one-entry search store for the C8 witness: session touched at 0. -/
def sweepWitnessSearchSession : SearchState :=
  { searchId := "s1", query := "q", results := [], currentPage := 0,
    totalPages := 0, userId := "u", channelId := "c", timestamp := 0 }

/-- A one-entry native-GIF store for the C8 witness: session touched at
the 7-minute mark. -/
def sweepWitnessNativeSession : NativeGifState :=
  { id := "n1", gifUrl := "g", userId := "u", messageId := "m",
    channelId := "c", timestamp := 420000 }

/-- Witness for C8: at `now` = 11 minutes, a search session touched at
time 0 (older than its 10-minute TTL) is gone after the sweep while a
native-GIF session touched at the 7-minute mark (age 4 minutes, within its
5-minute TTL) survives. -/
theorem sweep_expiry_witness :
    (cleanupExpiredStates
      (fun k => if k = "s1" then some sweepWitnessSearchSession else none,
       fun k => if k = "n1" then some sweepWitnessNativeSession else none)
      660000).1 "s1" = none ∧
    (cleanupExpiredStates
      (fun k => if k = "s1" then some sweepWitnessSearchSession else none,
       fun k => if k = "n1" then some sweepWitnessNativeSession else none)
      660000).2 "n1" = some sweepWitnessNativeSession :=
  ⟨((sweep_expiry
      (fun k => if k = "s1" then some sweepWitnessSearchSession else none)
      (fun k => if k = "n1" then some sweepWitnessNativeSession else none)
      660000 "s1").1 sweepWitnessSearchSession (by decide)).2.1 (by decide),
   ((sweep_expiry
      (fun k => if k = "s1" then some sweepWitnessSearchSession else none)
      (fun k => if k = "n1" then some sweepWitnessNativeSession else none)
      660000 "n1").2 sweepWitnessNativeSession (by decide)).2.2 (by decide)⟩

/-- The local `recentTimestamps` of `checkRateLimit` for a face-swap check:
the stored timestamps inside the hourly window. -/
def recentFaceswapTimestamps (db : RateDb) (userId : String) (now : Int) :
    List Int :=
  (db userId .faceswap).filter
    (fun ts => ts > now - (RATE_LIMITS .faceswap).timeWindow)

/-- The local `burstTimestamps` of `checkRateLimit`: the hourly-recent
timestamps additionally inside the 10-minute burst window. -/
def burstTimestamps (db : RateDb) (userId : String) (now : Int) : List Int :=
  (recentFaceswapTimestamps db userId now).filter
    (fun ts => ts > now - BURST_LIMIT.timeWindow)

/-- `checkRateLimit` specialised to the face-swap action, written out over
the two filtered timestamp lists. -/
theorem checkRateLimit_faceswap_eq (db : RateDb) (userId : String) (now : Int) :
    checkRateLimit db userId .faceswap now =
      (if (recentFaceswapTimestamps db userId now).length ≥
          (RATE_LIMITS .faceswap).maxActions then
        .deniedHourly (mathCeilDiv
          (listMin (recentFaceswapTimestamps db userId now) +
            (RATE_LIMITS .faceswap).timeWindow - now) 60000)
      else if (burstTimestamps db userId now).length ≥
          BURST_LIMIT.maxActions then
        .deniedBurst (mathCeilDiv
          (listMin (burstTimestamps db userId now) +
            BURST_LIMIT.timeWindow - now) 60000)
      else .allowed) := by
  rfl

/-- C6: for the face-swap action kind (burst limit 3 per 10 minutes),
a user whose hourly-window count is below the hourly cap but who has 3
timestamps inside the 10-minute burst window is denied with the burst
message, whose wait time is `ceil((oldestBurst + 10 min - now) / 1 min)`
minutes; once the burst window holds no timestamps, the check allows the
action. -/
theorem checkRateLimit_burst_window (db : RateDb) (userId : String) (now : Int) :
    BURST_LIMIT.maxActions = 3 ∧ BURST_LIMIT.timeWindow = 10 * 60 * 1000 ∧
    ((recentFaceswapTimestamps db userId now).length <
        (RATE_LIMITS .faceswap).maxActions →
      ((burstTimestamps db userId now).length = 3 →
        checkRateLimit db userId .faceswap now =
          .deniedBurst (mathCeilDiv
            (listMin (burstTimestamps db userId now) +
              BURST_LIMIT.timeWindow - now) 60000)) ∧
      (burstTimestamps db userId now = [] →
        checkRateLimit db userId .faceswap now = .allowed)) := by
  refine ⟨rfl, rfl, ?_⟩
  intro hmain
  have hmain2 : ¬ ((recentFaceswapTimestamps db userId now).length ≥
      (RATE_LIMITS .faceswap).maxActions) := by omega
  constructor
  · intro hburst
    rw [checkRateLimit_faceswap_eq, if_neg hmain2,
      if_pos (by rw [hburst]; exact le_refl 3)]
  · intro hempty
    rw [checkRateLimit_faceswap_eq, if_neg hmain2,
      if_neg (by rw [hempty]; decide)]

/-- Rate-limit table for the C6 witness: user `bob` has face swaps
recorded at 500000, 600000 and 700000 ms. -/
def rateWitnessDb : RateDb := fun u a =>
  if u = "bob" ∧ a = .faceswap then [500000, 600000, 700000] else []

/-- Witness for C6: at `now` = 1000000 all three timestamps sit inside the
burst window, so the fourth swap is denied with a 2-minute wait
(`ceil((500000 + 600000 - 1000000) / 60000) = 2`); at `now` = 1400001 all
three are older than 10 minutes and the swap is allowed. -/
theorem checkRateLimit_burst_window_witness :
    checkRateLimit rateWitnessDb "bob" .faceswap 1000000 =
      .deniedBurst (mathCeilDiv
        (listMin (burstTimestamps rateWitnessDb "bob" 1000000) +
          BURST_LIMIT.timeWindow - 1000000) 60000) ∧
    mathCeilDiv (listMin (burstTimestamps rateWitnessDb "bob" 1000000) +
      BURST_LIMIT.timeWindow - 1000000) 60000 = 2 ∧
    checkRateLimit rateWitnessDb "bob" .faceswap 1400001 = .allowed :=
  ⟨((checkRateLimit_burst_window rateWitnessDb "bob" 1000000).2.2
      (by decide)).1 (by decide),
   by decide,
   ((checkRateLimit_burst_window rateWitnessDb "bob" 1400001).2.2
      (by decide)).2 (by decide)⟩

/-- If every poll from `attempts + 1` up to (excluding) `k` reports
`pending` and the poll on attempt `k` reports `complete`, with `k` inside
the remaining budget, the loop returns the completion result (first
download URL, or the no-download error). -/
theorem pollForCompletion_complete (provider : Nat → StatusResponse)
    (fh tm : String) :
    ∀ (remaining attempts k : Nat), attempts < k → k ≤ attempts + remaining →
    (∀ i, attempts < i → i < k → (provider i).status = "pending") →
    (provider k).status = "complete" →
    pollForCompletion provider fh tm attempts remaining =
      (match (provider k).downloads with
       | [] => .err "No download URL returned from Magic Hour API"
       | url :: _ =>
         .ok { id := (provider k).id, downloadUrl := url,
               creditsCharged := (provider k).creditsCharged }) := by
  intro remaining
  induction remaining with
  | zero =>
    intro attempts k h1 h2 _ _
    omega
  | succ n ih =>
    intro attempts k h1 h2 hpend hcomp
    by_cases hk : attempts + 1 = k
    · subst hk
      simp only [pollForCompletion]
      rw [if_pos hcomp]
    · have hp : (provider (attempts + 1)).status = "pending" :=
        hpend _ (by omega) (by omega)
      simp only [pollForCompletion]
      rw [if_neg (by rw [hp]; decide), if_neg (by rw [hp]; decide)]
      exact ih (attempts + 1) k (by omega) (by omega)
        (fun i hi1 hi2 => hpend i (by omega) hi2) hcomp

/-- If every poll inside the whole remaining budget reports `pending`, the
loop falls through to the timeout error. -/
theorem pollForCompletion_timeout (provider : Nat → StatusResponse)
    (fh tm : String) :
    ∀ (remaining attempts : Nat),
    (∀ i, attempts < i → i ≤ attempts + remaining →
      (provider i).status = "pending") →
    pollForCompletion provider fh tm attempts remaining = .err tm := by
  intro remaining
  induction remaining with
  | zero => intro attempts _; rfl
  | succ n ih =>
    intro attempts hpend
    have hp : (provider (attempts + 1)).status = "pending" :=
      hpend _ (by omega) (by omega)
    simp only [pollForCompletion]
    rw [if_neg (by rw [hp]; decide), if_neg (by rw [hp]; decide)]
    exact ih (attempts + 1) (fun i hi1 hi2 => hpend i (by omega) (by omega))

/-- C4: the poll loops of the job client. `swapFaces` polls to a ceiling
of 60 attempts and `swapFacesInVideo` to 120 (one poll every 5 seconds,
hence 5 resp. 10 minutes of wall time). Pending on every attempt before
some `k` at or below the ceiling followed by `complete` with a download
list headed by `url` yields the result carrying `url`; pending on every
attempt up to the ceiling yields the respective timeout error. -/
theorem swap_poll_ceilings (providerI providerV : Nat → StatusResponse)
    (k kv : Nat) (url urlv : String) (rest restv : List String) :
    (1 ≤ k → k ≤ 60 →
      (∀ i, 1 ≤ i → i < k → (providerI i).status = "pending") →
      (providerI k).status = "complete" →
      (providerI k).downloads = url :: rest →
      swapFaces providerI =
        .ok { id := (providerI k).id, downloadUrl := url,
              creditsCharged := (providerI k).creditsCharged }) ∧
    ((∀ i, 1 ≤ i → i ≤ 60 → (providerI i).status = "pending") →
      swapFaces providerI = .err "Face swap timed out after 5 minutes") ∧
    (1 ≤ kv → kv ≤ 120 →
      (∀ i, 1 ≤ i → i < kv → (providerV i).status = "pending") →
      (providerV kv).status = "complete" →
      (providerV kv).downloads = urlv :: restv →
      swapFacesInVideo providerV =
        .ok { id := (providerV kv).id, downloadUrl := urlv,
              creditsCharged := (providerV kv).creditsCharged }) ∧
    ((∀ i, 1 ≤ i → i ≤ 120 → (providerV i).status = "pending") →
      swapFacesInVideo providerV =
        .err "Video face swap timed out after 10 minutes") := by
  refine ⟨?_, ?_, ?_, ?_⟩
  · intro hk1 hk2 hpend hcomp hdl
    unfold swapFaces
    rw [pollForCompletion_complete providerI _ _ 60 0 k (by omega) (by omega)
      (fun i hi1 hi2 => hpend i (by omega) hi2) hcomp, hdl]
  · intro hpend
    exact pollForCompletion_timeout providerI _ _ 60 0
      (fun i hi1 hi2 => hpend i (by omega) (by omega))
  · intro hk1 hk2 hpend hcomp hdl
    unfold swapFacesInVideo
    rw [pollForCompletion_complete providerV _ _ 120 0 kv (by omega) (by omega)
      (fun i hi1 hi2 => hpend i (by omega) hi2) hcomp, hdl]
  · intro hpend
    exact pollForCompletion_timeout providerV _ _ 120 0
      (fun i hi1 hi2 => hpend i (by omega) (by omega))

/-- Provider for the C4 witness: pending on attempts 1..59, complete with
one download URL on attempt 60 (the last allowed image-job attempt). -/
def pollWitnessProvider : Nat → StatusResponse := fun i =>
  if i = 60 then
    { id := "proj", status := "complete", downloads := ["result.gif"],
      creditsCharged := 7 }
  else { id := "proj", status := "pending" }

/-- Provider for the C4 witness that never completes. -/
def pollPendingProvider : Nat → StatusResponse :=
  fun _ => { id := "proj", status := "pending" }

/-- Witness for C4: completion on the 60th of 60 attempts delivers the
download URL; all-pending runs time out with the 5-minute (image) and
10-minute (video) messages. -/
theorem swap_poll_ceilings_witness :
    swapFaces pollWitnessProvider =
      .ok { id := "proj", downloadUrl := "result.gif", creditsCharged := 7 } ∧
    swapFaces pollPendingProvider =
      .err "Face swap timed out after 5 minutes" ∧
    swapFacesInVideo pollPendingProvider =
      .err "Video face swap timed out after 10 minutes" :=
  ⟨(swap_poll_ceilings pollWitnessProvider pollPendingProvider 60 1
      "result.gif" "" [] []).1 (by omega) (by omega)
      (fun i hi1 hi2 => by unfold pollWitnessProvider; rw [if_neg (by omega)])
      (by decide) (by decide),
   (swap_poll_ceilings pollPendingProvider pollPendingProvider 60 1
      "result.gif" "" [] []).2.1 (fun i _ _ => rfl),
   (swap_poll_ceilings pollPendingProvider pollPendingProvider 60 1
      "result.gif" "" [] []).2.2.2 (fun i _ _ => rfl)⟩

/-- A stopped collector delivers nothing more. -/
theorem collectStep_stopped (userId : String) (run : CollectorRun)
    (m : InboundMessage) (h : run.stopped = true) :
    collectStep userId run m = run := by
  unfold collectStep
  rw [if_pos h]

/-- Folding further messages into a stopped collector changes nothing. -/
theorem collect_fold_stopped (userId : String) :
    ∀ (msgs : List InboundMessage) (run : CollectorRun), run.stopped = true →
    msgs.foldl (collectStep userId) run = run := by
  intro msgs
  induction msgs with
  | nil => intro run _; rfl
  | cons m rest ih =>
    intro run h
    simp only [List.foldl_cons]
    rw [collectStep_stopped userId run m h]
    exact ih run h

/-- A qualifying message delivered to an open, unconsumed collector is
processed and stops the collector. -/
theorem collectStep_qualifying (userId : String) (run : CollectorRun)
    (m : InboundMessage) (hs : run.stopped = false) (hc : run.collected = false)
    (hq : qualifiesForUpload userId m = true) :
    collectStep userId run m =
      { collected := true, stopped := true,
        processed := run.processed ++ [m] } := by
  have hfilter : uploadFilter userId m = true := by
    simp only [qualifiesForUpload, Bool.and_eq_true] at hq
    exact hq.1
  rcases hh : m.attachments.head? with _ | a
  · exfalso
    simp only [uploadFilter, decide_eq_true_eq] at hfilter
    rcases hfilter with ⟨_, hne⟩
    rw [List.head?_eq_none_iff] at hh
    exact hne hh
  · have hv : isValidImageAttachment a = true := by
      simp only [qualifiesForUpload, Bool.and_eq_true, hh] at hq
      exact hq.2
    simp [collectStep, hs, hc, hfilter, hh, hv]

/-- A non-qualifying message leaves the collector state unchanged (whether
it was filtered out or its first attachment failed validation). -/
theorem collectStep_not_qualifying (userId : String) (run : CollectorRun)
    (m : InboundMessage) (hq : qualifiesForUpload userId m = false) :
    collectStep userId run m = run := by
  by_cases hstop : run.stopped = true
  · simp [collectStep, hstop]
  · have hs : run.stopped = false := by simpa using hstop
    by_cases hfilter : uploadFilter userId m = true
    · by_cases hcoll : run.collected = true
      · simp [collectStep, hs, hfilter, hcoll]
      · have hc : run.collected = false := by simpa using hcoll
        rcases hh : m.attachments.head? with _ | a
        · simp [collectStep, hs, hfilter, hc, hh]
        · have hv : isValidImageAttachment a = false := by
            simp only [qualifiesForUpload, hfilter, Bool.true_and, hh] at hq
            exact hq
          simp [collectStep, hs, hfilter, hc, hh, hv]
    · have hf : uploadFilter userId m = false := by simpa using hfilter
      simp [collectStep, hf]

/-- Folding any message sequence into an open, unconsumed collector
processes exactly the first qualifying message of the sequence. -/
theorem waitFold_processed (userId : String) :
    ∀ (msgs : List InboundMessage) (run : CollectorRun),
    run.stopped = false → run.collected = false →
    (msgs.foldl (collectStep userId) run).processed =
      run.processed ++ (msgs.find? (qualifiesForUpload userId)).toList := by
  intro msgs
  induction msgs with
  | nil => intro run _ _; simp
  | cons m rest ih =>
    intro run hs hc
    by_cases hq : qualifiesForUpload userId m = true
    · simp only [List.foldl_cons]
      rw [collectStep_qualifying userId run m hs hc hq,
        collect_fold_stopped userId rest _ rfl,
        List.find?_cons_of_pos _ hq]
      simp
    · have hq2 : qualifiesForUpload userId m = false := by simpa using hq
      simp only [List.foldl_cons]
      rw [collectStep_not_qualifying userId run m hq2, ih run hs hc,
        List.find?_cons_of_neg _ hq]

/-- The `max: 1` native collector also takes exactly the first
filtered-in message. -/
theorem nativeCollect_eq_find (userId : String) :
    ∀ msgs, nativeUploadCollect userId msgs =
      (msgs.find? (nativeUploadFilter userId)).toList := by
  intro msgs
  induction msgs with
  | nil => rfl
  | cons m rest ih =>
    by_cases h : nativeUploadFilter userId m = true
    · simp [nativeUploadCollect, h, List.find?_cons_of_pos _ h]
    · have h2 : nativeUploadFilter userId m = false := by simpa using h
      simp only [nativeUploadCollect, h2, if_false, Bool.false_eq_true]
      rw [List.find?_cons_of_neg _ h, ih]

/-- C7: an upload-collection window consumes exactly one qualifying
message. Over any inbound message sequence, `waitForFaceUpload` processes
precisely the first message from the session owner whose first attachment
is a valid image - every later message, qualifying or not, is ignored -
and the `max: 1` collector of `handleNativeGifFaceUpload` likewise
collects precisely the first filtered-in message. -/
theorem upload_single_consumption (userId : String)
    (messages : List InboundMessage) :
    (waitForFaceUpload userId messages).processed =
      (messages.find? (qualifiesForUpload userId)).toList ∧
    (waitForFaceUpload userId messages).processed.length ≤ 1 ∧
    nativeUploadCollect userId messages =
      (messages.find? (nativeUploadFilter userId)).toList := by
  have h1 := waitFold_processed userId messages {} rfl rfl
  refine ⟨by simpa [waitForFaceUpload] using h1, ?_, nativeCollect_eq_find userId messages⟩
  rw [show (waitForFaceUpload userId messages).processed =
    (messages.find? (qualifiesForUpload userId)).toList from by
      simpa [waitForFaceUpload] using h1]
  cases messages.find? (qualifiesForUpload userId) <;> simp

/-- `Math.ceil(n / 9)` on a natural count agrees with `(n + 8) / 9`. -/
theorem mathCeilDiv_nat_nine (n : Nat) :
    mathCeilDiv (n : Int) 9 = (((n + 8) / 9 : Nat) : Int) := by
  unfold mathCeilDiv
  omega

/-- The store returned by `updateSearchState` on an existing session: the
updated record when the write lands, the original store when the write is
dropped; the verification branches only choose the reported result. -/
theorem updateSearchState_snd (store : SearchStore) (searchId : String)
    (upd : SearchUpdate) (now : Int) (writeOk : Bool) (s : SearchState)
    (hs : store searchId = some s) :
    (updateSearchState store searchId upd now writeOk).2 =
      if writeOk then searchSet store searchId (applySearchUpdate s upd now)
      else store := by
  simp only [updateSearchState, hs]
  rcases h2 : (if writeOk = true then
      searchSet store searchId (applySearchUpdate s upd now) else store)
      searchId with _ | v
  · simp
  · dsimp only
    split_ifs <;> rfl

/-- The session stored under `searchId` after `handlePageNavigation` by
the owner: the clamped new page (with refreshed timestamp) when the write
lands, the untouched session when it is dropped; a foreign caller leaves
the store unchanged. -/
theorem handlePageNavigation_store (store : SearchStore)
    (searchId uid : String) (next : Bool) (now2 : Int) (writeOk : Bool)
    (s : SearchState) (hs : store searchId = some s) :
    (handlePageNavigation store searchId uid next now2 writeOk).2 searchId =
      if uid ≠ s.userId then some s
      else if writeOk then
        some { s with
          currentPage :=
            if next then min (s.currentPage + 1) (s.totalPages - 1)
            else max (s.currentPage - 1) 0
          timestamp := now2 }
      else some s := by
  by_cases hu : uid = s.userId
  · have hne : ¬(uid ≠ s.userId) := by simp [hu]
    simp only [handlePageNavigation, hs]
    rw [if_neg hne]
    rw [updateSearchState_snd store searchId _ now2 writeOk s hs]
    by_cases hw : writeOk = true
    · subst hw
      rw [if_pos rfl]
      simp [searchSet, applySearchUpdate, hu]
    · have hw2 : writeOk = false := by simpa using hw
      subst hw2
      rw [if_neg (by decide)]
      simp [hs, hu]
  · have hne : uid ≠ s.userId := hu
    simp only [handlePageNavigation, hs]
    rw [if_pos hne, if_pos hne]
    exact hs

/-- C5: pagination. At creation `totalPages` is the ceiling of the result
count over the page size 9 and `currentPage` is 0 (strictly below
`totalPages` whenever the result list is non-empty - the `/gifsearch`
command never creates a session from an empty result list). Navigation
preserves `0 ≤ currentPage < totalPages`, a `next` on the last page leaves
`currentPage` unchanged, and a `prev` on page 0 leaves it at 0. -/
theorem pagination_invariant (store : SearchStore)
    (searchId query : String) (results : List TenorGif)
    (userId channelId uid : String) (now now2 : Int)
    (next writeOk : Bool) :
    ((createSearchState store searchId query results userId channelId
        now).1.totalPages = (((results.length + 8) / 9 : Nat) : Int) ∧
      (results ≠ [] →
        0 ≤ (createSearchState store searchId query results userId channelId
          now).1.currentPage ∧
        (createSearchState store searchId query results userId channelId
          now).1.currentPage <
          (createSearchState store searchId query results userId channelId
            now).1.totalPages)) ∧
    (∀ s, store searchId = some s →
      0 ≤ s.currentPage → s.currentPage < s.totalPages →
      ∀ s2,
        (handlePageNavigation store searchId uid next now2 writeOk).2 searchId =
          some s2 →
        (0 ≤ s2.currentPage ∧ s2.currentPage < s2.totalPages) ∧
        (next = true → s.currentPage = s.totalPages - 1 →
          s2.currentPage = s.currentPage) ∧
        (next = false → s.currentPage = 0 → s2.currentPage = 0)) := by
  constructor
  · constructor
    · simp [createSearchState, mathCeilDiv_nat_nine]
    · intro hne
      have hlen : results.length ≠ 0 := by simpa using hne
      constructor
      · simp [createSearchState]
      · simp only [createSearchState, mathCeilDiv_nat_nine]
        have h9 : 1 ≤ (results.length + 8) / 9 := by omega
        omega
  · intro s hs h0 h1 s2 hs2
    rw [handlePageNavigation_store store searchId uid next now2 writeOk s hs]
      at hs2
    by_cases hu : uid ≠ s.userId
    · rw [if_pos hu] at hs2
      injection hs2 with h
      subst h
      exact ⟨⟨h0, h1⟩, fun _ _ => rfl, fun _ hz => hz⟩
    · rw [if_neg hu] at hs2
      by_cases hw : writeOk = true
      · subst hw
        rw [if_pos rfl] at hs2
        injection hs2 with h
        subst h
        refine ⟨⟨?_, ?_⟩, ?_, ?_⟩
        · cases next <;> simp <;> omega
        · cases next <;> simp <;> omega
        · intro hnext hlast
          subst hnext
          simp
          omega
        · intro hnext hzero
          subst hnext
          simp
          omega
      · have hw2 : writeOk = false := by simpa using hw
        subst hw2
        rw [if_neg (by decide)] at hs2
        injection hs2 with h
        subst h
        exact ⟨⟨h0, h1⟩, fun _ _ => rfl, fun _ hz => hz⟩

/-- Concrete GIF for the C5 witness. -/
def navWitnessGif : TenorGif :=
  { id := "g1", title := "t", gifUrl := "u1", url := "u2", itemurl := "u3" }

/-- One-result session for the C5 witness: page 0 of 1. -/
def navWitnessSession : SearchState :=
  { searchId := "s1", query := "q", results := [navWitnessGif],
    currentPage := 0, totalPages := 1, userId := "alice", channelId := "c",
    timestamp := 0 }

/-- Store for the C5 witness. -/
def navWitnessStore : SearchStore :=
  fun k => if k = "s1" then some navWitnessSession else none

/-- Witness for C5: creating a session over one result yields one page,
and the owner pressing `next` on the last page leaves the page index
unchanged. -/
theorem pagination_invariant_witness :
    (createSearchState (fun _ => none) "s2" "q" [navWitnessGif] "alice" "c"
      5).1.totalPages = 1 ∧
    ({ navWitnessSession with currentPage := 0, timestamp := 7 } :
      SearchState).currentPage = navWitnessSession.currentPage :=
  ⟨(pagination_invariant (fun _ => none) "s2" "q" [navWitnessGif] "alice" "c"
      "alice" 5 7 true true).1.1,
   ((pagination_invariant navWitnessStore "s1" "q" [navWitnessGif] "alice" "c"
      "alice" 5 7 true true).2 navWitnessSession (by decide) (by decide) (by decide)
      { navWitnessSession with currentPage := 0, timestamp := 7 }
      (by decide)).2.1 rfl (by decide)⟩

/-- Native-GIF session for the C3 counterexample. -/
def verifyCounterSession : NativeGifState :=
  { id := "native_alice_1", gifUrl := "g", userId := "alice",
    messageId := "m", channelId := "c", timestamp := 0 }

/-- Native-GIF store for the C3 counterexample. -/
def verifyCounterStore : NativeStore :=
  fun k => if k = "native_alice_1" then some verifyCounterSession else none

/-- C3 counterexample: a native-GIF update whose write is dropped still
reports success (`true`), yet the subsequent `get` returns the old record
with `selectedFaceId` unset - silent success instead of a
verification-failed outcome, refuting the claim for native-GIF swap
sessions. -/
theorem nativeUpdate_silent_success :
    (updateNativeGifState verifyCounterStore "native_alice_1"
      { selectedFaceId := some "face_alice_7" } 1000 false).1 = true ∧
    getNativeGifState
      (updateNativeGifState verifyCounterStore "native_alice_1"
        { selectedFaceId := some "face_alice_7" } 1000 false).2
      "native_alice_1" = some verifyCounterSession ∧
    verifyCounterSession.selectedFaceId ≠ some "face_alice_7" := by
  refine ⟨rfl, ?_, by decide⟩
  simp [updateNativeGifState, getNativeGifState, verifyCounterStore]

/-- C3 amended: read-after-write verification holds for **search**
sessions only. A successful `updateSearchState` guarantees the re-read
state carries exactly the updated field values, and a dropped write that
changes `currentPage` is reported as the distinct
`Update verification failed` outcome; `updateNativeGifState`, by contrast,
reports success whenever the session exists, performing no read-back
verification. -/
theorem update_verification_amended (store : SearchStore)
    (nativeStore : NativeStore) (searchId sessionId : String)
    (upd : SearchUpdate) (nupd : NativeGifUpdate) (now : Int)
    (writeOk : Bool) :
    ((updateSearchState store searchId upd now writeOk).1.success = true →
      ∃ v, getSearchState
          (updateSearchState store searchId upd now writeOk).2 searchId =
          some v ∧
        (∀ p, upd.currentPage = some p → v.currentPage = p) ∧
        (∀ g, upd.selectedGif = some g → v.selectedGif = some g)) ∧
    (∀ s p, store searchId = some s → upd.currentPage = some p →
      p ≠ s.currentPage →
      (updateSearchState store searchId upd now false).1 =
        { success := false,
          error := some "Update verification failed for currentPage" }) ∧
    (∀ ns, nativeStore sessionId = some ns →
      (updateNativeGifState nativeStore sessionId nupd now writeOk).1 =
        true) := by
  refine ⟨?_, ?_, ?_⟩
  · intro h
    rcases hs : store searchId with _ | s
    · simp only [updateSearchState, hs] at h
      cases h
    · simp only [updateSearchState, hs] at h ⊢
      set store2 := (if writeOk = true then
        searchSet store searchId (applySearchUpdate s upd now) else store)
        with hst2
      rcases h2 : store2 searchId with _ | v
      · rw [h2] at h
        dsimp only at h
        cases h
      · rw [h2] at h
        dsimp only at h
        dsimp only
        split_ifs at h with hpage hgif
        refine ⟨v, ?_, ?_, ?_⟩
        · rw [if_neg hpage, if_neg hgif]
          simpa [getSearchState] using h2
        · intro p hp
          rw [hp] at hpage
          simpa using hpage
        · intro g hg
          rw [hg] at hgif
          simpa using hgif
  · intro s p hs hp hne
    have hne2 : ¬(s.currentPage = p) := fun hcontra => hne hcontra.symm
    simp only [updateSearchState, hs]
    simp [hs, hp, hne2]
  · intro ns hns
    simp only [updateNativeGifState, hns]

/-- Search session for the C3 witness. -/
def verifyWitnessSession : SearchState :=
  { searchId := "s1", query := "q", results := [], currentPage := 0,
    totalPages := 1, userId := "alice", channelId := "c", timestamp := 0 }

/-- Search store for the C3 witness. -/
def verifyWitnessStore : SearchStore :=
  fun k => if k = "s1" then some verifyWitnessSession else none

/-- Witness for the amended C3: a page change whose write is dropped is
reported as the verification failure on a search session, while a
native-GIF update under the same dropped write still reports success. -/
theorem update_verification_amended_witness :
    (updateSearchState verifyWitnessStore "s1" { currentPage := some 1 } 5
      false).1 =
      { success := false,
        error := some "Update verification failed for currentPage" } ∧
    (updateNativeGifState verifyCounterStore "native_alice_1"
      { selectedFaceId := some "face_alice_9" } 5 false).1 = true :=
  ⟨(update_verification_amended verifyWitnessStore verifyCounterStore "s1"
      "native_alice_1" { currentPage := some 1 }
      { selectedFaceId := some "face_alice_9" } 5 false).2.1
      verifyWitnessSession 1 (by decide) rfl (by decide),
   (update_verification_amended verifyWitnessStore verifyCounterStore "s1"
      "native_alice_1" { currentPage := some 1 }
      { selectedFaceId := some "face_alice_9" } 5 false).2.2
      verifyCounterSession (by decide)⟩

/-- Selected GIF for the C2 evaluation. -/
def deadCheckGif : TenorGif :=
  { id := "g1", title := "t", gifUrl := "u1", url := "u2", itemurl := "u3" }

/-- Search session (GIF already selected) owned by `alice` for the C2
evaluation. -/
def deadCheckSession : SearchState :=
  { searchId := "s1", query := "q", results := [deadCheckGif],
    currentPage := 0, totalPages := 1, userId := "alice", channelId := "c",
    selectedGif := some deadCheckGif, timestamp := 0 }

/-- Store for the C2 evaluation. -/
def deadCheckStore : SearchStore :=
  fun k => if k = "s1" then some deadCheckSession else none

/-- C2 (code defect): against an empty face table - the pressed face was
deleted, or belongs to someone else - `getFaceById` resolves to `null`,
yet `handleSavedFaceSelection` does not reply `faceNotFound`: the
un-awaited promise is truthy, so the handler falls through and starts a
face swap whose face path is `undefined`. -/
theorem savedFaceSelection_dead_check :
    getFaceById ([] : FaceDb) "face_alice_1" "alice" = none ∧
    (handleSavedFaceSelection deadCheckStore [] "s1" "face_alice_1"
      "alice").1 = .startSwap none ∧
    (handleSavedFaceSelection deadCheckStore [] "s1" "face_alice_1"
      "alice").1 ≠ .faceNotFound := by
  refine ⟨rfl, ?_, ?_⟩ <;> decide

/-- Native-GIF session owned by `alice` for the C1 counterexample. -/
def nativeOwnSession : NativeGifState :=
  { id := "native_alice_5", gifUrl := "g", userId := "alice",
    messageId := "m", channelId := "c", timestamp := 0 }

/-- Store holding `alice`'s native-GIF session for the C1 counterexample. -/
def nativeOwnStore : NativeStore :=
  fun k => if k = "native_alice_5" then some nativeOwnSession else none

/-- A saved face belonging to `bob` for the C1 counterexample. -/
def bobFace : SavedFace :=
  { id := "face_bob_1", user_id := "bob", name := "me",
    magic_hour_path := "api-path-bob.png", uploaded_at := 0 }

/-- C1 counterexample: `bob` acts on `alice`'s native-GIF session.
`handleNativeGifFaceSelect` performs no ownership check: with a crafted
button id naming `bob`'s own face it mutates `alice`'s session
(`selectedFaceId` set) and starts a swap instead of rejecting; and
`handleNativeGifFaceUpload` proceeds straight to the upload prompt for
any acting user. -/
theorem nativeOwnership_counterexample :
    ("bob" : String) ≠ nativeOwnSession.userId ∧
    (handleNativeGifFaceSelect nativeOwnStore [bobFace] "native_alice_5"
      "face_bob_1" "bob" 1000 true).1 = .startSwap "api-path-bob.png" ∧
    (handleNativeGifFaceSelect nativeOwnStore [bobFace] "native_alice_5"
      "face_bob_1" "bob" 1000 true).2 "native_alice_5" =
      some { nativeOwnSession with
             selectedFaceId := some "face_bob_1"
             timestamp := 1000 } ∧
    (handleNativeGifFaceUpload nativeOwnStore "native_alice_5" "bob").1 =
      .promptUpload := by
  refine ⟨by decide, by decide, ?_, by decide⟩
  decide

/-- C1 amended: ownership. Every mutating search-session action (page
navigation, GIF selection, saved-face selection, upload prompt,
cancellation) and the native-GIF swap entry button reject a non-owner with
a user-visible error and leave the store unchanged. The native-GIF
face-select handler checks only that the referenced face belongs to the
**acting** user - so a non-owner is rejected (`faceNotFound`) exactly when
the face id is not theirs - and the native-GIF face-upload handler
performs no ownership check at all, proceeding to the upload prompt for
any user. -/
theorem ownership_checks_amended (searchStore : SearchStore)
    (nativeStore : NativeStore) (faces : FaceDb) (sid u faceId : String)
    (next writeOk : Bool) (now : Int) (index : Nat) :
    (∀ s, searchStore sid = some s → u ≠ s.userId →
      handlePageNavigation searchStore sid u next now writeOk =
        (.notYourSearch, searchStore) ∧
      handleGifSelection searchStore sid index u now writeOk =
        (.notYourSearch, searchStore) ∧
      (s.selectedGif.isSome →
        handleSavedFaceSelection searchStore faces sid faceId u =
          (.notYourSearch, searchStore) ∧
        handleFaceUploadPrompt searchStore sid u =
          (.notYourSearch, searchStore)) ∧
      handleSearchCancel searchStore sid u = (.notYourSearch, searchStore)) ∧
    (∀ ns, nativeStore sid = some ns → u ≠ ns.userId →
      handleNativeGifSwapButton nativeStore sid u =
        (.notYourGif, nativeStore) ∧
      ((∀ f ∈ faces, f.id = faceId → f.user_id ≠ u) →
        handleNativeGifFaceSelect nativeStore faces sid faceId u now writeOk =
          (.faceNotFound, nativeStore)) ∧
      (handleNativeGifFaceUpload nativeStore sid u).1 = .promptUpload) := by
  constructor
  · intro s hs hu
    refine ⟨?_, ?_, ?_, ?_⟩
    · simp only [handlePageNavigation, hs]
      rw [if_pos hu]
    · simp only [handleGifSelection, hs]
      rw [if_pos hu]
    · intro hsel
      rcases hg : s.selectedGif with _ | g
      · rw [hg] at hsel
        simp at hsel
      · constructor
        · simp only [handleSavedFaceSelection, hs, hg]
          rw [if_pos hu]
        · simp only [handleFaceUploadPrompt, hs, hg]
          rw [if_pos hu]
    · simp only [handleSearchCancel, hs]
      rw [if_pos hu]
  · intro ns hns hu
    refine ⟨?_, ?_, ?_⟩
    · simp only [handleNativeGifSwapButton, hns]
      rw [if_pos (fun hcontra => hu hcontra.symm)]
    · intro hf
      have hfind : (getUserFaces faces u).find? (fun f => f.id = faceId) =
          none := by
        rw [List.find?_eq_none]
        intro x hx
        simp only [getUserFaces, List.mem_filter] at hx
        intro hxid
        exact hf x hx.1 (by simpa using hxid) (by simpa using hx.2)
      simp only [handleNativeGifFaceSelect, hns, hfind]
    · simp only [handleNativeGifFaceUpload, hns]

/-- Search session (GIF selected) owned by `alice` for the C1 witness. -/
def ownWitnessSearchSession : SearchState :=
  { searchId := "s1", query := "q", results := [deadCheckGif],
    currentPage := 0, totalPages := 1, userId := "alice", channelId := "c",
    selectedGif := some deadCheckGif, timestamp := 0 }

/-- Search store for the C1 witness. -/
def ownWitnessSearchStore : SearchStore :=
  fun k => if k = "s1" then some ownWitnessSearchSession else none

/-- Native store (session owned by `alice`) for the C1 witness. -/
def ownWitnessNativeStore : NativeStore :=
  fun k => if k = "n1" then
    some { id := "n1", gifUrl := "g", userId := "alice", messageId := "m",
           channelId := "c", timestamp := 0 } else none

/-- A saved face belonging to `alice` for the C1 witness. -/
def aliceFace : SavedFace :=
  { id := "face_alice_1", user_id := "alice",
    name := "a", magic_hour_path := "api-path-alice.png", uploaded_at := 0 }

/-- Witness for the amended C1: `bob` pressing navigation on `alice`'s
search session is rejected with the store untouched; `bob` pressing the
native swap button is rejected; and `bob` selecting `alice`'s saved face
on the native session is rejected because the face is not among `bob`'s
faces. -/
theorem ownership_checks_amended_witness :
    handlePageNavigation ownWitnessSearchStore "s1" "bob" true 9 true =
      (.notYourSearch, ownWitnessSearchStore) ∧
    handleNativeGifSwapButton ownWitnessNativeStore "n1" "bob" =
      (.notYourGif, ownWitnessNativeStore) ∧
    handleNativeGifFaceSelect ownWitnessNativeStore [aliceFace] "n1"
      "face_alice_1" "bob" 9 true = (.faceNotFound, ownWitnessNativeStore) :=
  ⟨((ownership_checks_amended ownWitnessSearchStore ownWitnessNativeStore
      [aliceFace] "s1" "bob" "face_alice_1" true true 9 0).1
      ownWitnessSearchSession (by decide) (by decide)).1,
   ((ownership_checks_amended ownWitnessSearchStore ownWitnessNativeStore
      [aliceFace] "n1" "bob" "face_alice_1" true true 9 0).2
      { id := "n1", gifUrl := "g", userId := "alice", messageId := "m",
        channelId := "c", timestamp := 0 } (by decide) (by decide)).1,
   (((ownership_checks_amended ownWitnessSearchStore ownWitnessNativeStore
      [aliceFace] "n1" "bob" "face_alice_1" true true 9 0).2
      { id := "n1", gifUrl := "g", userId := "alice", messageId := "m",
        channelId := "c", timestamp := 0 } (by decide) (by decide)).2.1
      (by decide))⟩

end FaceSwapBot
